import Mathlib

/-!
Verification development for the pyapple-mcp repository.

The source is a Python MCP server that shells out to the macOS AppleScript
interpreter (`pyapple_mcp/utils/applescript.py`, the "Runner") and parses the
pipe/semicolon-delimited text the generated AppleScript payloads print back.

Embedding conventions:
* Python `str` is modelled as `List Char` (`Str`), so that Python's
  `s.split(sep)`, `s.split(sep, maxsplit)`, `s[:n]`, `sep.join(...)`,
  `s.startswith(p)` and `c in s` become `List.splitOn`, `splitChLimit`,
  `List.take`, `List.intercalate`, `List.isPrefixOf` and list membership.
* The Runner (`applescript.run_script`) and the permission probe
  (`applescript.check_app_access`) live in `applescript.py`; the adapters
  under scrutiny only consume them.  They are modelled as oracle fields of
  `Env` (`Env.run`, `Env.access`), and every adapter is instrumented to
  count its own `run_script` invocations (`OpResult.runnerCalls`) and to
  record its `logger.error` messages (`OpResult.log`).
* Python stdlib calls that the adapters make (`datetime.now().isoformat()`,
  `(now + timedelta(days = n)).isoformat()`,
  `datetime.fromisoformat(s[:10]).strftime("%m/%d/%Y")`, `int(s)`) are
  likewise oracle fields of `Env`: they are library code, not repository
  code, and no claim depends on their internals.
* `run_script` returns a dict with keys `success`, `result`, `error`
  (confirmed by `tests/test_server.py`); it is modelled by `ScriptResult`.
  Python truthiness of the `result` string is `¬ result.isEmpty`.
-/

/-- Python `str`, modelled as a list of characters. -/
abbrev Str := List Char

/-- A Python string literal. -/
def lit (s : String) : Str := s.data

/-- Python truthiness of an `Optional[str]` parameter: `None` and the empty
string are falsy (`if not x:`). -/
def strFalsy : Option Str → Bool
  | none => true
  | some s => s.isEmpty

/-- Python f-string interpolation of an `Optional[str]`: `None` prints as
`"None"` (used for `result.get('error')`). -/
def showOpt : Option Str → Str
  | none => lit "None"
  | some s => s

/-- Python f-string interpolation of a nonnegative int (`f"{limit}"`). -/
def natToStr (n : Nat) : Str := (Nat.repr n).data

/-- Python f-string interpolation of an int. -/
def intToStr (i : Int) : Str := (toString i).data

/-- `s.replace('"', '\\"')` — the quote escaping the adapters apply to
free-text parameters before interpolating them into a payload. -/
def escQuotes (s : Str) : Str :=
  s.flatMap (fun c => if c = '"' then ['\\', '"'] else [c])

/-- Python `s.split(sep, maxsplit)` for a one-character separator `c`:
split at the first `maxsplit` occurrences of `c`, keeping the rest of the
string (separators included) as the last piece.  `splitChLimit c 0 s = [s]`
and `splitChLimit c n [] = [[]]`, matching CPython. -/
def splitChLimit (c : Char) : Nat → Str → List Str
  | _, [] => [[]]
  | 0, a :: rest => [a :: rest]
  | n + 1, a :: rest =>
    if a = c then
      [] :: splitChLimit c n rest
    else
      match splitChLimit c (n + 1) rest with
      | [] => [[a]]
      | h :: t => (a :: h) :: t

/-- Python `s.replace(pat, rep)` (all non-overlapping occurrences, left to
right), via a fuel argument bounded by the length of `s`.  The source only
uses it with the non-empty pattern `"Success: "`; for an empty pattern this
model returns `s` unchanged. -/
def replaceAllGo (pat rep : Str) : Nat → Str → Str
  | _, [] => []
  | 0, s => s
  | fuel + 1, a :: rest =>
    if pat.isPrefixOf (a :: rest) then
      rep ++ replaceAllGo pat rep fuel ((a :: rest).drop pat.length)
    else
      a :: replaceAllGo pat rep fuel rest

/-- Python `s.replace(pat, rep)` for non-empty `pat`. -/
def replaceAll (pat rep s : Str) : Str :=
  if pat = [] then s else replaceAllGo pat rep s.length s

/-- The dict returned by `applescript.run_script` (keys `success`, `result`,
`error`; see `tests/test_server.py`).  `result` is `""` when the script
printed nothing. -/
structure ScriptResult where
  success : Bool
  result : Str
  error : Option Str
deriving Repr, DecidableEq

/-- The observable outcome of one adapter operation: its return value, the
number of `applescript.run_script` invocations the adapter itself made, and
the `logger.error` messages it emitted, in order. -/
structure OpResult (α : Type) where
  val : α
  runnerCalls : Nat
  log : List Str
deriving Repr, DecidableEq

/-- The environment an adapter operation runs against.  `access` and `run`
are the two entry points of the Runner module (`applescript.py`); the other
fields are the Python stdlib calls the adapters make (`datetime`, `int`). -/
structure Env where
  /-- `applescript.check_app_access(app_name)`. -/
  access : Str → Bool
  /-- `applescript.run_script(script)`. -/
  run : Str → ScriptResult
  /-- `datetime.now().isoformat()`. -/
  nowIso : Str
  /-- `(datetime.now() + timedelta(days = n)).isoformat()`. -/
  plusDaysIso : Nat → Str
  /-- `datetime.fromisoformat(s).strftime("%m/%d/%Y")`; `none` models the
  `ValueError` branch. -/
  parseDate10 : Str → Option Str
  /-- Python `int(s)`; `none` models the `ValueError` branch. -/
  pyInt : Str → Option Int

/-- A note dict: `{"title": ..., "content": ...}` (notes.py). -/
structure NoteRec where
  title : Str
  content : Str
deriving Repr, DecidableEq

/-- An event dict (calendar.py). -/
structure EventRec where
  title : Str
  location : Str
  notes : Str
  start_date : Str
  end_date : Str
  calendar_name : Str
  id : Str
deriving Repr, DecidableEq

/-- A message dict (messages.py `read_messages`). -/
structure MsgRec where
  sender : Str
  content : Str
  time : Str
deriving Repr, DecidableEq

/-- An email dict (mail.py `get_unread_emails`). -/
structure EmailRec where
  sender : Str
  subject : Str
  date : Str
  content : Str
deriving Repr, DecidableEq

/-- A `{"success": ..., "message": ...}` dict returned by the
create/send/open-style operations. -/
structure ActionResult where
  success : Bool
  message : Str
deriving Repr, DecidableEq

/-!
## Record codec

The payloads emit one chunk per record, fields joined with `"|"`
(`noteTitle & "|" & noteContent`, …) and chunks joined with `";"`
(`set AppleScript's text item delimiters to ";"`).  The Python side splits
them back (notes.py 71-82, calendar.py 126-144, messages.py 133-147,
mail.py 90-105).  `encodeRecords` is the producing side of that convention;
the `parse*Chunk*` functions are the consuming loops, split into a
per-chunk parser and a `filterMap` over the chunk list (the Python loops
fuse the two; the composition is identical).
-/

/-- The payload side of the codec: join each record's fields with `'|'`,
then join records with `';'`. -/
def encodeRecords (rs : List (List Str)) : Str :=
  List.intercalate [';'] (rs.map (fun r => List.intercalate ['|'] r))

/-- notes.py 74-76, field level: keep a chunk only if it contains `'|'`;
`note_entry.split("|", 1)` (a two-element list when `'|'` is present). -/
def parseNoteChunkParts (chunk : Str) : Option (List Str) :=
  if '|' ∈ chunk then some (splitChLimit '|' 1 chunk) else none

/-- notes.py 74-80: the note dict built from a chunk
(`title, content = note_entry.split("|", 1)`).  The `_` arm is unreachable:
`split("|", 1)` of a chunk containing `'|'` always has two pieces. -/
def parseNoteChunk (chunk : Str) : Option NoteRec :=
  if '|' ∈ chunk then
    match splitChLimit '|' 1 chunk with
    | [t, c] => some ⟨t, c⟩
    | _ => none
  else none

/-- calendar.py 129-133, field level: a chunk must contain `'|'` and
`event_entry.split("|", 6)` must have at least 7 pieces (it then has
exactly 7, since `maxsplit = 6`). -/
def parseCalendarChunkParts (chunk : Str) : Option (List Str) :=
  if '|' ∈ chunk then
    let parts := splitChLimit '|' 6 chunk
    if 7 ≤ parts.length then some parts else none
  else none

/-- calendar.py 129-142: the event dict built from a chunk; an empty
location becomes `"Not specified"` (`location or "Not specified"`). -/
def parseCalendarChunk (chunk : Str) : Option EventRec :=
  if '|' ∈ chunk then
    match splitChLimit '|' 6 chunk with
    | [t, loc, desc, sd, ed, cal, uid] =>
      some ⟨t, if loc.isEmpty then lit "Not specified" else loc, desc, sd, ed, cal, uid⟩
    | _ => none
  else none

/-- messages.py 136-145: `message_entry.split("|", 2)`, needing at least
(hence exactly) 3 pieces. -/
def parseMsgChunk (chunk : Str) : Option MsgRec :=
  if '|' ∈ chunk then
    match splitChLimit '|' 2 chunk with
    | [s, c, t] => some ⟨s, c, t⟩
    | _ => none
  else none

/-- mail.py 93-103: `email_entry.split("|", 3)`, needing at least (hence
exactly) 4 pieces; the content is previewed to its first 200 characters
followed by `"..."` when longer than 200. -/
def parseEmailChunk (chunk : Str) : Option EmailRec :=
  if '|' ∈ chunk then
    match splitChLimit '|' 3 chunk with
    | [s, subj, d, c] =>
      some ⟨s, subj, d, if 200 < c.length then c.take 200 ++ lit "..." else c⟩
    | _ => none
  else none

/-- Field-level decode of a notes blob (notes.py 72-82 up to the split):
`if notes_data:` guard, split on `";"`, keep chunks containing `"|"`. -/
def decodeNotesRecords (blob : Str) : List (List Str) :=
  if blob.isEmpty then [] else (List.splitOn ';' blob).filterMap parseNoteChunkParts

/-- Field-level decode of a calendar blob (calendar.py 127-133). -/
def decodeCalendarRecords (blob : Str) : List (List Str) :=
  if blob.isEmpty then [] else (List.splitOn ';' blob).filterMap parseCalendarChunkParts

/-- The per-chunk stage of the notes decode loop. -/
def decodeNotesChunks (chunks : List Str) : List NoteRec :=
  chunks.filterMap parseNoteChunk

/-- notes.py 72-82: dict-level decode of a notes blob. -/
def decodeNotes (blob : Str) : List NoteRec :=
  if blob.isEmpty then [] else decodeNotesChunks (List.splitOn ';' blob)

/-- The per-chunk stage of the calendar decode loop. -/
def decodeCalendarChunks (chunks : List Str) : List EventRec :=
  chunks.filterMap parseCalendarChunk

/-- calendar.py 126-144: dict-level decode of a calendar blob. -/
def decodeCalendar (blob : Str) : List EventRec :=
  if blob.isEmpty then [] else decodeCalendarChunks (List.splitOn ';' blob)

/-- The per-chunk stage of the messages decode loop. -/
def decodeMsgChunks (chunks : List Str) : List MsgRec :=
  chunks.filterMap parseMsgChunk

/-- messages.py 133-147: dict-level decode of a messages blob. -/
def decodeMsgs (blob : Str) : List MsgRec :=
  if blob.isEmpty then [] else decodeMsgChunks (List.splitOn ';' blob)

/-- The per-chunk stage of the mail decode loop. -/
def decodeEmailChunks (chunks : List Str) : List EmailRec :=
  chunks.filterMap parseEmailChunk

/-- mail.py 90-105: dict-level decode of a mail blob. -/
def decodeEmails (blob : Str) : List EmailRec :=
  if blob.isEmpty then [] else decodeEmailChunks (List.splitOn ';' blob)

/-!
## Domain adapters

Each operation follows the source's shape: permission check first
(`check_app_access`), then payload construction (an f-string), one
`run_script` call, then either sentinel handling (`"Success:"`/`"Error:"`)
or the codec.  The payload text is reproduced from the f-strings (Python's
`{{`/`}}` print as single braces, written `\x7b`/`\x7d` here).
-/

/-- notes.py 34-62 (the `search_notes` f-string; `search_text` is
interpolated unescaped, exactly as in the source). -/
def notesSearchScript (searchText : Str) : Str :=
  lit "
        tell application \"Notes\"
            set foundNotes to \x7b\x7d
            set searchText to \"" ++ searchText ++ lit "\"
            
            try
                repeat with anAccount in accounts
                    repeat with aFolder in folders of anAccount
                        repeat with aNote in notes of aFolder
                            set noteContent to body of aNote
                            set noteTitle to name of aNote
                            
                            if (noteContent contains searchText) or (noteTitle contains searchText) then
                                set end of foundNotes to (noteTitle & \"|\" & noteContent)
                            end if
                        end repeat
                    end repeat
                end repeat
                
                set AppleScript's text item delimiters to \";\"
                set resultString to foundNotes as string
                set AppleScript's text item delimiters to \"\"
                return resultString
                
            on error errMsg
                return \"Error: \" & errMsg
            end try
        end tell
        "

/-- notes.py 20-85: `NotesHandler.search_notes`. -/
def searchNotes (env : Env) (searchText : Str) : OpResult (List NoteRec) :=
  if env.access (lit "Notes") then
    let r := env.run (notesSearchScript searchText)
    if r.success && !r.result.isEmpty then
      if (lit "Error:").isPrefixOf r.result then
        ⟨[], 1, [lit "Notes error: " ++ r.result]⟩
      else
        ⟨decodeNotes r.result, 1, []⟩
    else
      ⟨[], 1, [lit "Failed to search notes: " ++ showOpt r.error]⟩
  else
    ⟨[], 0, [lit "Cannot access Notes app"]⟩

/-- notes.py 101-132 (the `list_notes` f-string). -/
def notesListScript (limit : Nat) : Str :=
  lit "
        tell application \"Notes\"
            set allNotes to \x7b\x7d
            set noteCount to 0
            set maxNotes to " ++ natToStr limit ++ lit "
            
            try
                repeat with anAccount in accounts
                    repeat with aFolder in folders of anAccount
                        repeat with aNote in notes of aFolder
                            if noteCount >= maxNotes then exit repeat
                            
                            set noteContent to body of aNote
                            set noteTitle to name of aNote
                            set end of allNotes to (noteTitle & \"|\" & noteContent)
                            set noteCount to noteCount + 1
                        end repeat
                        if noteCount >= maxNotes then exit repeat
                    end repeat
                    if noteCount >= maxNotes then exit repeat
                end repeat
                
                set AppleScript's text item delimiters to \";\"
                set resultString to allNotes as string
                set AppleScript's text item delimiters to \"\"
                return resultString
                
            on error errMsg
                return \"Error: \" & errMsg
            end try
        end tell
        "

/-- notes.py 87-155: `NotesHandler.list_notes`. -/
def listNotes (env : Env) (limit : Nat) : OpResult (List NoteRec) :=
  if env.access (lit "Notes") then
    let r := env.run (notesListScript limit)
    if r.success && !r.result.isEmpty then
      if (lit "Error:").isPrefixOf r.result then
        ⟨[], 1, [lit "Notes error: " ++ r.result]⟩
      else
        ⟨decodeNotes r.result, 1, []⟩
    else
      ⟨[], 1, [lit "Failed to list notes: " ++ showOpt r.error]⟩
  else
    ⟨[], 0, [lit "Cannot access Notes app"]⟩

/-- notes.py 178-203 (the `create_note` f-string; title, body and folder
arrive already quote-escaped). -/
def notesCreateScript (safeTitle safeBody safeFolder : Str) : Str :=
  lit "
        tell application \"Notes\"
            try
                -- Try to find the folder, create it if it doesn't exist
                set targetFolder to null
                set targetAccount to account 1
                
                try
                    set targetFolder to folder \"" ++ safeFolder ++ lit "\" of targetAccount
                on error
                    -- Folder doesn't exist, create it
                    set targetFolder to make new folder with properties \x7bname:\"" ++ safeFolder ++ lit "\"\x7d at targetAccount
                end try
                
                -- Create the note
                set newNote to make new note at targetFolder
                set name of newNote to \"" ++ safeTitle ++ lit "\"
                set body of newNote to \"" ++ safeBody ++ lit "\"
                
                return \"Success: Note created\"
                
            on error errMsg
                return \"Error: \" & errMsg
            end try
        end tell
        "

/-- notes.py 157-215: `NotesHandler.create_note`. -/
def createNote (env : Env) (title body folderName : Str) : OpResult ActionResult :=
  if env.access (lit "Notes") then
    let r := env.run (notesCreateScript (escQuotes title) (escQuotes body) (escQuotes folderName))
    if r.success && !r.result.isEmpty then
      if (lit "Success:").isPrefixOf r.result then
        ⟨⟨true, lit "Note created successfully"⟩, 1, []⟩
      else
        ⟨⟨false, r.result⟩, 1, [lit "Notes creation error: " ++ r.result]⟩
    else
      ⟨⟨false, lit "Failed to create note: " ++ showOpt r.error⟩, 1,
        [lit "Failed to create note: " ++ showOpt r.error]⟩
  else
    ⟨⟨false, lit "Cannot access Notes app"⟩, 0, [lit "Cannot access Notes app"]⟩

/-- messages.py 40-50 (the `send_message` f-string; phone and message
arrive already quote-escaped). -/
def messagesSendScript (safePhone safeMessage : Str) : Str :=
  lit "
        tell application \"Messages\"
            try
                set targetBuddy to buddy \"" ++ safePhone ++ lit "\"
                send \"" ++ safeMessage ++ lit "\" to targetBuddy
                return \"Success: Message sent\"
            on error errMsg
                return \"Error: \" & errMsg
            end try
        end tell
        "

/-- messages.py 21-62: `MessagesHandler.send_message`. -/
def sendMessage (env : Env) (phoneNumber message : Str) : OpResult ActionResult :=
  if env.access (lit "Messages") then
    let r := env.run (messagesSendScript (escQuotes phoneNumber) (escQuotes message))
    if r.success && !r.result.isEmpty then
      if (lit "Success:").isPrefixOf r.result then
        ⟨⟨true, lit "Message sent successfully"⟩, 1, []⟩
      else
        ⟨⟨false, r.result⟩, 1, [lit "Messages send error: " ++ r.result]⟩
    else
      ⟨⟨false, lit "Failed to send message: " ++ showOpt r.error⟩, 1,
        [lit "Failed to send message: " ++ showOpt r.error]⟩
  else
    ⟨⟨false, lit "Cannot access Messages app"⟩, 0, [lit "Cannot access Messages app"]⟩

/-- messages.py 79-124 (the `read_messages` f-string; `phone_number` is
interpolated unescaped, exactly as in the source). -/
def messagesReadScript (phoneNumber : Str) (limit : Nat) : Str :=
  lit "
        tell application \"Messages\"
            set messagesList to \x7b\x7d
            set targetNumber to \"" ++ phoneNumber ++ lit "\"
            set messageLimit to " ++ natToStr limit ++ lit "
            
            try
                set targetChat to null
                
                -- Find the chat for this phone number
                repeat with aChat in chats
                    repeat with aBuddy in participants of aChat
                        if id of aBuddy contains targetNumber then
                            set targetChat to aChat
                            exit repeat
                        end if
                    end repeat
                    if targetChat is not null then exit repeat
                end repeat
                
                if targetChat is not null then
                    set recentMessages to (items 1 thru (count of texts of targetChat)) of texts of targetChat
                    if (count of recentMessages) > messageLimit then
                        set recentMessages to items 1 thru messageLimit of recentMessages
                    end if
                    
                    repeat with aMessage in recentMessages
                        set messageText to text of aMessage
                        set messageDate to time sent of aMessage
                        set messageSender to handle of sender of aMessage
                        
                        set messageInfo to (messageSender & \"|\" & messageText & \"|\" & (messageDate as string))
                        set end of messagesList to messageInfo
                    end repeat
                end if
                
                set AppleScript's text item delimiters to \";\"
                set resultString to messagesList as string
                set AppleScript's text item delimiters to \"\"
                return resultString
                
            on error errMsg
                return \"Error: \" & errMsg
            end try
        end tell
        "

/-- messages.py 64-150: `MessagesHandler.read_messages`. -/
def readMessages (env : Env) (phoneNumber : Str) (limit : Nat) : OpResult (List MsgRec) :=
  if env.access (lit "Messages") then
    let r := env.run (messagesReadScript phoneNumber limit)
    if r.success && !r.result.isEmpty then
      if (lit "Error:").isPrefixOf r.result then
        ⟨[], 1, [lit "Messages read error: " ++ r.result]⟩
      else
        ⟨decodeMsgs r.result, 1, []⟩
    else
      ⟨[], 1, [lit "Failed to read messages: " ++ showOpt r.error]⟩
  else
    ⟨[], 0, [lit "Cannot access Messages app"]⟩

/-- messages.py 152-169: `MessagesHandler.schedule_message` — a stub whose
body never touches the Runner and returns a fixed dict. -/
def scheduleMessage (_env : Env) (_phoneNumber _message _scheduledTime : Str) :
    OpResult ActionResult :=
  ⟨⟨false, lit "Message scheduling is not natively supported by Apple Messages. Consider using a third-party automation tool."⟩,
    0, []⟩

/-- messages.py 182-197 (the `get_unread_count` script, a plain literal). -/
def messagesUnreadScript : Str :=
  lit "
        tell application \"Messages\"
            set unreadCount to 0
            
            try
                repeat with aChat in chats
                    set unreadCount to unreadCount + (unread count of aChat)
                end repeat
                
                return unreadCount as string
                
            on error errMsg
                return \"Error: \" & errMsg
            end try
        end tell
        "

/-- messages.py 171-213: `MessagesHandler.get_unread_count`. -/
def getUnreadCount (env : Env) : OpResult Int :=
  if env.access (lit "Messages") then
    let r := env.run messagesUnreadScript
    if r.success && !r.result.isEmpty then
      if (lit "Error:").isPrefixOf r.result then
        ⟨0, 1, [lit "Messages unread count error: " ++ r.result]⟩
      else
        match env.pyInt r.result with
        | some n => ⟨n, 1, []⟩
        | none => ⟨0, 1, [lit "Invalid unread count: " ++ r.result]⟩
    else
      ⟨0, 1, [lit "Failed to get unread count: " ++ showOpt r.error]⟩
  else
    ⟨0, 0, [lit "Cannot access Messages app"]⟩

/-- calendar.py 38-43: the date window used by `search_events` — caller
values kept when truthy, otherwise `datetime.now().isoformat()` for the
start and `(now + timedelta(days=30)).isoformat()` for the end. -/
def searchEventsDates (env : Env) (fromD toD : Option Str) : Str × Str :=
  (if strFalsy fromD then env.nowIso else fromD.getD [],
   if strFalsy toD then env.plusDaysIso 30 else toD.getD [])

/-- calendar.py 165-170: the date window used by `get_events` — same as
`searchEventsDates` but with a `timedelta(days=1)` default for the end. -/
def getEventsDates (env : Env) (fromD toD : Option Str) : Str × Str :=
  (if strFalsy fromD then env.nowIso else fromD.getD [],
   if strFalsy toD then env.plusDaysIso 1 else toD.getD [])

/-- calendar.py 60-117 (the `search_events` f-string). -/
def calendarSearchScript (safeSearchText : Str) (limit : Nat) (startDateStr endDateStr : Str) : Str :=
  lit "
        tell application \"Calendar\"
            set eventsList to \x7b\x7d
            set searchText to \"" ++ safeSearchText ++ lit "\"
            set eventLimit to " ++ natToStr limit ++ lit "
            set eventCount to 0
            
            try
                set startDate to date \"" ++ startDateStr ++ lit "\"
                set endDate to date \"" ++ endDateStr ++ lit " 11:59:59 PM\"
                
                repeat with aCalendar in calendars
                    if eventCount >= eventLimit then exit repeat
                    
                    -- Better date range logic: find events that overlap with our date range
                    set calendarEvents to (every event of aCalendar whose (start date <= endDate) and (end date >= startDate))
                    
                    repeat with anEvent in calendarEvents
                        if eventCount >= eventLimit then exit repeat
                        
                        set eventTitle to summary of anEvent
                        
                        -- Handle potentially empty values
                        try
                            set eventLocation to location of anEvent
                        on error
                            set eventLocation to \"\"
                        end try
                        
                        try
                            set eventDescription to description of anEvent
                        on error
                            set eventDescription to \"\"
                        end try
                        
                        if (eventTitle contains searchText) or (eventLocation contains searchText) or (eventDescription contains searchText) then
                            set eventStart to start date of anEvent
                            set eventEnd to end date of anEvent
                            set eventCalendar to title of aCalendar
                            set eventUID to uid of anEvent
                            
                            set eventInfo to (eventTitle & \"|\" & eventLocation & \"|\" & eventDescription & \"|\" & (eventStart as string) & \"|\" & (eventEnd as string) & \"|\" & eventCalendar & \"|\" & eventUID)
                            set end of eventsList to eventInfo
                            set eventCount to eventCount + 1
                        end if
                    end repeat
                end repeat
                
                set AppleScript's text item delimiters to \";\"
                set resultString to eventsList as string
                set AppleScript's text item delimiters to \"\"
                return resultString
                
            on error errMsg
                return \"Error: \" & errMsg
            end try
        end tell
        "

/-- calendar.py 21-147: `CalendarHandler.search_events`.  The two
`datetime.fromisoformat(...[:10]).strftime(...)` conversions go through the
`Env.parseDate10` oracle; its `none` is the `ValueError` branch (which logs
`"Date parsing error: ..."` and returns `[]` with no Runner call). -/
def searchEvents (env : Env) (searchText : Str) (limit : Nat) (fromD toD : Option Str) :
    OpResult (List EventRec) :=
  if env.access (lit "Calendar") then
    let dates := searchEventsDates env fromD toD
    match env.parseDate10 (dates.1.take 10), env.parseDate10 (dates.2.take 10) with
    | some startDateStr, some endDateStr =>
      let r := env.run (calendarSearchScript (escQuotes searchText) limit startDateStr endDateStr)
      if r.success && !r.result.isEmpty then
        if (lit "Error:").isPrefixOf r.result then
          ⟨[], 1, [lit "Calendar search error: " ++ r.result]⟩
        else
          ⟨decodeCalendar r.result, 1, []⟩
      else
        ⟨[], 1, [lit "Failed to search events: " ++ showOpt r.error]⟩
    | _, _ => ⟨[], 0, [lit "Date parsing error"]⟩
  else
    ⟨[], 0, [lit "Cannot access Calendar app"]⟩

/-- calendar.py 184-238 (the `get_events` f-string). -/
def calendarGetScript (limit : Nat) (startDateStr endDateStr : Str) : Str :=
  lit "
        tell application \"Calendar\"
            set eventsList to \x7b\x7d
            set eventLimit to " ++ natToStr limit ++ lit "
            set eventCount to 0
            
            try
                set startDate to date \"" ++ startDateStr ++ lit "\"
                set endDate to date \"" ++ endDateStr ++ lit " 11:59:59 PM\"
                
                repeat with aCalendar in calendars
                    if eventCount >= eventLimit then exit repeat
                    
                    -- Better date range logic: find events that overlap with our date range
                    set calendarEvents to (every event of aCalendar whose (start date <= endDate) and (end date >= startDate))
                    
                    repeat with anEvent in calendarEvents
                        if eventCount >= eventLimit then exit repeat
                        
                        set eventTitle to summary of anEvent
                        
                        -- Handle potentially empty values
                        try
                            set eventLocation to location of anEvent
                        on error
                            set eventLocation to \"\"
                        end try
                        
                        try
                            set eventDescription to description of anEvent
                        on error
                            set eventDescription to \"\"
                        end try
                        
                        set eventStart to start date of anEvent
                        set eventEnd to end date of anEvent
                        set eventCalendar to title of aCalendar
                        set eventUID to uid of anEvent
                        
                        set eventInfo to (eventTitle & \"|\" & eventLocation & \"|\" & eventDescription & \"|\" & (eventStart as string) & \"|\" & (eventEnd as string) & \"|\" & eventCalendar & \"|\" & eventUID)
                        set end of eventsList to eventInfo
                        set eventCount to eventCount + 1
                    end repeat
                end repeat
                
                set AppleScript's text item delimiters to \";\"
                set resultString to eventsList as string
                set AppleScript's text item delimiters to \"\"
                return resultString
                
            on error errMsg
                return \"Error: \" & errMsg
            end try
        end tell
        "

/-- calendar.py 149-268: `CalendarHandler.get_events`. -/
def getEvents (env : Env) (limit : Nat) (fromD toD : Option Str) : OpResult (List EventRec) :=
  if env.access (lit "Calendar") then
    let dates := getEventsDates env fromD toD
    match env.parseDate10 (dates.1.take 10), env.parseDate10 (dates.2.take 10) with
    | some startDateStr, some endDateStr =>
      let r := env.run (calendarGetScript limit startDateStr endDateStr)
      if r.success && !r.result.isEmpty then
        if (lit "Error:").isPrefixOf r.result then
          ⟨[], 1, [lit "Calendar get events error: " ++ r.result]⟩
        else
          ⟨decodeCalendar r.result, 1, []⟩
      else
        ⟨[], 1, [lit "Failed to get events: " ++ showOpt r.error]⟩
    | _, _ => ⟨[], 0, [lit "Date parsing error"]⟩
  else
    ⟨[], 0, [lit "Cannot access Calendar app"]⟩

/-- calendar.py 376-406 (the `open_event` f-string; `event_id` is
interpolated unescaped, exactly as in the source). -/
def calendarOpenScript (eventId : Str) : Str :=
  lit "
        tell application \"Calendar\"
            try
                activate
                
                -- Search for the event by UID
                set eventUID to \"" ++ eventId ++ lit "\"
                set foundEvent to null
                
                repeat with aCalendar in calendars
                    repeat with anEvent in events of aCalendar
                        if uid of anEvent is eventUID then
                            set foundEvent to anEvent
                            exit repeat
                        end if
                    end repeat
                    if foundEvent is not null then exit repeat
                end repeat
                
                if foundEvent is not null then
                    show foundEvent
                    return \"Success: Opened event: \" & summary of foundEvent
                else
                    return \"Error: No event found with ID: \" & eventUID
                end if
                
            on error errMsg
                return \"Error: \" & errMsg
            end try
        end tell
        "

/-- calendar.py 362-418: `CalendarHandler.open_event`
(`result_msg.replace("Success: ", "")` on the success path). -/
def openEvent (env : Env) (eventId : Str) : OpResult ActionResult :=
  if env.access (lit "Calendar") then
    let r := env.run (calendarOpenScript eventId)
    if r.success && !r.result.isEmpty then
      if (lit "Success:").isPrefixOf r.result then
        ⟨⟨true, replaceAll (lit "Success: ") [] r.result⟩, 1, []⟩
      else
        ⟨⟨false, r.result⟩, 1, [lit "Calendar open error: " ++ r.result]⟩
    else
      ⟨⟨false, lit "Failed to open event: " ++ showOpt r.error⟩, 1,
        [lit "Failed to open event: " ++ showOpt r.error]⟩
  else
    ⟨⟨false, lit "Cannot access Calendar app"⟩, 0, [lit "Cannot access Calendar app"]⟩

/-- mail.py 37-44: the mailbox clause selected from the optional `account`
and `mailbox` parameters (Python truthiness). -/
def mailTargetClause (account mailbox : Option Str) : Str :=
  if !strFalsy account && !strFalsy mailbox then
    lit "mailbox \"" ++ mailbox.getD [] ++ lit "\" of account \"" ++ account.getD [] ++ lit "\""
  else if !strFalsy account then
    lit "inbox of account \"" ++ account.getD [] ++ lit "\""
  else if !strFalsy mailbox then
    lit "mailbox \"" ++ mailbox.getD [] ++ lit "\""
  else
    lit "inbox"

/-- mail.py 46-81 (the `get_unread_emails` f-string). -/
def mailUnreadScript (targetClause : Str) (limit : Nat) : Str :=
  lit "
        tell application \"Mail\"
            set emailsList to \x7b\x7d
            set emailLimit to " ++ natToStr limit ++ lit "
            
            try
                set targetMailbox to " ++ targetClause ++ lit "
                set unreadMessages to (every message of targetMailbox whose read status is false)
                
                set messageCount to count of unreadMessages
                if messageCount > emailLimit then
                    set messagesToProcess to items 1 thru emailLimit of unreadMessages
                else
                    set messagesToProcess to unreadMessages
                end if
                
                repeat with aMessage in messagesToProcess
                    set messageSender to sender of aMessage
                    set messageSubject to subject of aMessage
                    set messageDate to date received of aMessage
                    set messageContent to content of aMessage
                    
                    set messageInfo to (messageSender & \"|\" & messageSubject & \"|\" & (messageDate as string) & \"|\" & messageContent)
                    set end of emailsList to messageInfo
                end repeat
                
                set AppleScript's text item delimiters to \";\"
                set resultString to emailsList as string
                set AppleScript's text item delimiters to \"\"
                return resultString
                
            on error errMsg
                return \"Error: \" & errMsg
            end try
        end tell
        "

/-- mail.py (module top) to 108: `MailHandler.get_unread_emails`. -/
def getUnreadEmails (env : Env) (account mailbox : Option Str) (limit : Nat) :
    OpResult (List EmailRec) :=
  if env.access (lit "Mail") then
    let r := env.run (mailUnreadScript (mailTargetClause account mailbox) limit)
    if r.success && !r.result.isEmpty then
      if (lit "Error:").isPrefixOf r.result then
        ⟨[], 1, [lit "Mail error: " ++ r.result]⟩
      else
        ⟨decodeEmails r.result, 1, []⟩
    else
      ⟨[], 1, [lit "Failed to get unread emails: " ++ showOpt r.error]⟩
  else
    ⟨[], 0, [lit "Cannot access Mail app"]⟩

/-- maps.py 194-202: `MapsHandler.list_guides` — a stub whose body never
touches the Runner; note that its dict carries `"success": True`. -/
def listGuides (_env : Env) : OpResult ActionResult :=
  ⟨⟨true, lit "Guide listing is not available via AppleScript. Please check the Maps app directly for your guides."⟩,
    0, []⟩

/-- maps.py 204-215: `MapsHandler.create_guide` — a stub whose body never
touches the Runner. -/
def createGuide (_env : Env) (guideName : Str) : OpResult ActionResult :=
  ⟨⟨false, lit "Creating guides via AppleScript is not supported. Please create the guide '" ++
      guideName ++ lit "' manually in the Maps app."⟩,
    0, []⟩

/-- maps.py 217-229: `MapsHandler.add_to_guide` — a stub whose body never
touches the Runner. -/
def addToGuide (_env : Env) (address guideName : Str) : OpResult ActionResult :=
  ⟨⟨false, lit "Adding to guides via AppleScript is not supported. Please manually add '" ++
      address ++ lit "' to the guide '" ++ guideName ++ lit "' in the Maps app."⟩,
    0, []⟩

/-!
## Tool layer (server.py)

The MCP tool functions validate their required free-text parameters with
Python truthiness (`if not x:`) before touching any handler, then format
the handler's outcome as one reply string.  The `OpResult` of a tool
aggregates the Runner invocations and log entries of the handler calls it
made (none for a validation failure).
-/

/-- server.py 124-162: the `notes` tool body (operations `search`, `list`,
`create`; `list_notes` is called with its default `limit = 50`). -/
def notesTool (env : Env) (operation : Str) (searchText title body : Option Str)
    (folderName : Str) : OpResult Str :=
  if operation = lit "search" then
    if strFalsy searchText then
      ⟨lit "Search text is required for search operation", 0, []⟩
    else
      let st := searchText.getD []
      let r := searchNotes env st
      if r.val.isEmpty then
        ⟨lit "No notes found matching '" ++ st ++ lit "'", r.runnerCalls, r.log⟩
      else
        ⟨lit "Found " ++ natToStr r.val.length ++ lit " notes matching '" ++ st ++
            lit "':\n\n" ++
            List.intercalate (lit "\n\n")
              (r.val.map (fun note =>
                lit "Title: " ++ note.title ++ lit "\nContent: " ++
                  note.content.take 200 ++ lit "...")),
          r.runnerCalls, r.log⟩
  else if operation = lit "list" then
    let r := listNotes env 50
    if r.val.isEmpty then
      ⟨lit "No notes found", r.runnerCalls, r.log⟩
    else
      ⟨lit "Found " ++ natToStr r.val.length ++ lit " notes:\n\n" ++
          List.intercalate (lit "\n\n")
            (r.val.map (fun note =>
              lit "Title: " ++ note.title ++ lit "\nContent: " ++
                note.content.take 100 ++ lit "...")),
        r.runnerCalls, r.log⟩
  else if operation = lit "create" then
    if strFalsy title || strFalsy body then
      ⟨lit "Title and body are required for create operation", 0, []⟩
    else
      let r := createNote env (title.getD []) (body.getD []) folderName
      if r.val.success then
        ⟨lit "Successfully created note '" ++ title.getD [] ++ lit "' in folder '" ++
            folderName ++ lit "'", r.runnerCalls, r.log⟩
      else
        ⟨lit "Failed to create note: " ++ r.val.message, r.runnerCalls, r.log⟩
  else
    ⟨lit "Unknown operation: " ++ operation ++
        lit ". Valid operations are: search, list, create", 0, []⟩

/-- server.py 186-228: the `messages` tool body (operations `send`, `read`,
`schedule`, `unread`). -/
def messagesTool (env : Env) (operation : Str) (phoneNumber message : Option Str)
    (limit : Nat) (scheduledTime : Option Str) : OpResult Str :=
  if operation = lit "send" then
    if strFalsy phoneNumber || strFalsy message then
      ⟨lit "Phone number and message are required for send operation", 0, []⟩
    else
      let r := sendMessage env (phoneNumber.getD []) (message.getD [])
      if r.val.success then
        ⟨lit "Message sent successfully to " ++ phoneNumber.getD [] ++ lit ": " ++
            message.getD [], r.runnerCalls, r.log⟩
      else
        ⟨lit "Failed to send message: " ++ r.val.message, r.runnerCalls, r.log⟩
  else if operation = lit "read" then
    if strFalsy phoneNumber then
      ⟨lit "Phone number is required for read operation", 0, []⟩
    else
      let r := readMessages env (phoneNumber.getD []) limit
      if r.val.isEmpty then
        ⟨lit "No messages found with " ++ phoneNumber.getD [], r.runnerCalls, r.log⟩
      else
        ⟨lit "Last " ++ natToStr r.val.length ++ lit " messages with " ++
            phoneNumber.getD [] ++ lit ":\n\n" ++
            List.intercalate (lit "\n")
              (r.val.map (fun m =>
                lit "[" ++ m.time ++ lit "] " ++ m.sender ++ lit ": " ++ m.content)),
          r.runnerCalls, r.log⟩
  else if operation = lit "schedule" then
    if strFalsy phoneNumber || strFalsy message || strFalsy scheduledTime then
      ⟨lit "Phone number, message, and scheduled_time are required for schedule operation", 0, []⟩
    else
      let r := scheduleMessage env (phoneNumber.getD []) (message.getD []) (scheduledTime.getD [])
      if r.val.success then
        ⟨lit "Message scheduled successfully to " ++ phoneNumber.getD [] ++ lit " at " ++
            scheduledTime.getD [] ++ lit ": " ++ message.getD [], r.runnerCalls, r.log⟩
      else
        ⟨lit "Failed to schedule message: " ++ r.val.message, r.runnerCalls, r.log⟩
  else if operation = lit "unread" then
    let r := getUnreadCount env
    ⟨lit "You have " ++ intToStr r.val ++ lit " unread messages", r.runnerCalls, r.log⟩
  else
    ⟨lit "Unknown operation: " ++ operation ++
        lit ". Valid operations are: send, read, schedule, unread", 0, []⟩

/-!
## Web search (websearch.py)

The one adapter with no AppleScript dependency.  The HTTP round trips and
the BeautifulSoup HTML parsing are external (network responses and library
code), so the model starts from their parsed outcome: the list of
`a.result__a` anchors found on the results page, each with its text, its
`href`, and — when `find_parent('div', 'result')` and the inner
`find('div', 'result__snippet')` succeed — its snippet text.  What remains
(result assembly, snippet defaulting, the 500-character content preview of
`search_web`, and the URL-validation/fallback strings of
`_extract_page_content`) is repository code, modelled faithfully.
-/

/-- One `a.result__a` anchor of the parsed results page.
`container = none` models `find_parent` returning `None`;
`container = some none` a result container without a snippet element;
`container = some (some s)` a snippet element with stripped text `s`. -/
structure Anchor where
  text : Str
  href : Str
  container : Option (Option Str)
deriving Repr, DecidableEq

/-- One entry of the `results` list built by `search_web`. -/
structure WebResult where
  title : Str
  url : Str
  snippet : Str
  content : Str
deriving Repr, DecidableEq

/-- The dict returned by `search_web`. -/
structure WebOutcome where
  success : Bool
  results : List WebResult
  error : Option Str
deriving Repr, DecidableEq

/-- The external world of one `search_web` call. -/
structure WebEnv where
  /-- The anchors parsed from the fetched results page. -/
  page : List Anchor
  /-- `urlparse(url)`: whether both `scheme` and `netloc` are nonempty. -/
  urlValid : Str → Bool
  /-- Fetching `url` and stripping its visible text; `none` models the
  caught per-page exception. -/
  fetchText : Str → Option Str
  /-- `some e` models the outer `except Exception` around the whole search
  (network failure fetching the results page, etc.). -/
  fail : Option Str

/-- websearch.py 130-172: `_extract_page_content`. -/
def extractPageContent (env : WebEnv) (url : Str) : Str :=
  if !env.urlValid url then
    lit "Invalid URL"
  else
    match env.fetchText url with
    | some t => t
    | none => lit "Content not available"

/-- websearch.py 26-96: `search_web` — take the first `max_results`
anchors, and build for each a result dict whose `content` is the fetched
page text, previewed to its first 500 characters plus `"..."` when longer
than 500. -/
def searchWeb (env : WebEnv) (_query : Str) (maxResults : Nat) : WebOutcome :=
  match env.fail with
  | some e => ⟨false, [], some e⟩
  | none =>
    ⟨true,
      (env.page.take maxResults).map (fun link =>
        let pageContent := extractPageContent env link.href
        { title := link.text
          url := link.href
          snippet := match link.container with
            | some (some s) => s
            | _ => []
          content :=
            if 500 < pageContent.length then pageContent.take 500 ++ lit "..."
            else pageContent }),
      none⟩

/-!
## Split/join lemmas
-/

theorem splitChLimit_zero (c : Char) (s : Str) : splitChLimit c 0 s = [s] := by
  cases s <;> rfl

theorem splitChLimit_of_not_mem {c : Char} {s : Str} (h : c ∉ s) (n : Nat) :
    splitChLimit c n s = [s] := by
  induction s generalizing n with
  | nil => cases n <;> rfl
  | cons a rest ih =>
    cases n with
    | zero => rfl
    | succ n =>
      have ha : ¬a = c := fun e => h (by simp [e])
      have hr : c ∉ rest := fun hm => h (List.mem_cons_of_mem a hm)
      simp [splitChLimit, ha, ih hr]

theorem splitChLimit_append_cons {c : Char} {x : Str} (h : c ∉ x) (n : Nat) (rest : Str) :
    splitChLimit c (n + 1) (x ++ c :: rest) = x :: splitChLimit c n rest := by
  induction x with
  | nil => simp [splitChLimit]
  | cons a x ih =>
    have ha : ¬a = c := fun e => h (by simp [e])
    have hx : c ∉ x := fun hm => h (List.mem_cons_of_mem a hm)
    simp [List.cons_append, splitChLimit, ha, ih hx]

theorem intercalate_cons_cons {α : Type} (s x y : List α) (t : List (List α)) :
    List.intercalate s (x :: y :: t) = x ++ s ++ List.intercalate s (y :: t) := by
  simp [List.intercalate, List.intersperse, List.append_assoc]

theorem intercalate_singleton' {α : Type} (s x : List α) :
    List.intercalate s [x] = x := by
  simp [List.intercalate, List.intersperse]

theorem splitChLimit_intercalate {c : Char} :
    ∀ (xss : List Str) (n : Nat), xss ≠ [] → xss.length ≤ n + 1 →
      (∀ x ∈ xss, c ∉ x) → splitChLimit c n (List.intercalate [c] xss) = xss := by
  intro xss
  induction xss with
  | nil => intro n h; exact absurd rfl h
  | cons x xss ih =>
    intro n _ hlen hmem
    cases xss with
    | nil =>
      rw [intercalate_singleton']
      exact splitChLimit_of_not_mem (hmem x (by simp)) n
    | cons y t =>
      cases n with
      | zero => simp at hlen
      | succ m =>
        rw [intercalate_cons_cons, List.append_assoc, List.singleton_append,
          splitChLimit_append_cons (hmem x (by simp)) m]
        have := ih m (by simp) (by simpa using Nat.le_of_succ_le_succ hlen)
          (fun z hz => hmem z (List.mem_cons_of_mem x hz))
        rw [this]

theorem not_mem_intercalate {d c : Char} (hdc : d ≠ c) :
    ∀ (xss : List Str), (∀ x ∈ xss, d ∉ x) → d ∉ List.intercalate [c] xss := by
  intro xss
  induction xss with
  | nil => intro _; simp [List.intercalate]
  | cons x xss ih =>
    intro hmem
    cases xss with
    | nil =>
      rw [intercalate_singleton']
      exact hmem x (by simp)
    | cons y t =>
      rw [intercalate_cons_cons, List.append_assoc, List.singleton_append]
      intro hd
      rcases List.mem_append.mp hd with h1 | h2
      · exact hmem x (by simp) h1
      · rcases List.mem_cons.mp h2 with rfl | h3
        · exact hdc rfl
        · exact ih (fun z hz => hmem z (List.mem_cons_of_mem x hz)) h3

theorem mem_intercalate_sep {c : Char} {x y : Str} (t : List Str) :
    c ∈ List.intercalate [c] (x :: y :: t) := by
  rw [intercalate_cons_cons, List.append_assoc, List.singleton_append]
  simp

theorem intercalate_cons_ne_nil {c : Char} {x : Str} (hx : x ≠ []) (xss : List Str) :
    List.intercalate [c] (x :: xss) ≠ [] := by
  cases xss with
  | nil => rwa [intercalate_singleton']
  | cons y t =>
    rw [intercalate_cons_cons, List.append_assoc]
    simp [hx]

theorem filterMap_map_self {α β : Type} {f : α → Option β} {g : β → α} :
    ∀ (l : List β), (∀ x ∈ l, f (g x) = some x) → (l.map g).filterMap f = l := by
  intro l
  induction l with
  | nil => intro _; rfl
  | cons x t ih =>
    intro h
    rw [List.map_cons, List.filterMap_cons, h x (by simp),
      ih (fun z hz => h z (List.mem_cons_of_mem x hz))]

theorem isEmpty_false_of_ne_nil {l : Str} (h : l ≠ []) : l.isEmpty = false := by
  cases l with
  | nil => exact absurd rfl h
  | cons a t => rfl

/-- The two field-shape parsers recover an encoded record exactly, when its
fields are free of the field delimiter. -/
theorem parseNoteChunkParts_intercalate {r : List Str} (hlen : r.length = 2)
    (hclean : ∀ f ∈ r, '|' ∉ f) :
    parseNoteChunkParts (List.intercalate ['|'] r) = some r := by
  obtain ⟨a, b, rfl⟩ := List.length_eq_two.mp hlen
  have hmem : '|' ∈ List.intercalate ['|'] [a, b] := mem_intercalate_sep []
  have hsplit : splitChLimit '|' 1 (List.intercalate ['|'] [a, b]) = [a, b] :=
    splitChLimit_intercalate [a, b] 1 (by simp) (by simp) hclean
  unfold parseNoteChunkParts
  rw [if_pos hmem, hsplit]

theorem parseCalendarChunkParts_intercalate {r : List Str} (hlen : r.length = 7)
    (hclean : ∀ f ∈ r, '|' ∉ f) :
    parseCalendarChunkParts (List.intercalate ['|'] r) = some r := by
  match r, hlen with
  | a :: b :: t, hlen =>
    have hmem : '|' ∈ List.intercalate ['|'] (a :: b :: t) := mem_intercalate_sep t
    have hsplit : splitChLimit '|' 6 (List.intercalate ['|'] (a :: b :: t)) = a :: b :: t :=
      splitChLimit_intercalate (a :: b :: t) 6 (by simp) (by omega) hclean
    unfold parseCalendarChunkParts
    rw [if_pos hmem]
    simp only [hsplit, hlen, le_refl, if_pos]

/-- **C1.** For every non-empty sequence of records whose field values
contain neither the field delimiter `'|'` nor the record delimiter `';'`,
decoding the blob produced by encoding the sequence (fields joined with
`'|'`, records joined with `';'`) recovers exactly the original records, in
order — for the two-field notes shape (notes.py 71-82) and the seven-field
calendar shape (calendar.py 126-144). -/
theorem decode_encode_roundtrip :
    (∀ rs : List (List Str), rs ≠ [] → (∀ r ∈ rs, r.length = 2) →
      (∀ r ∈ rs, ∀ f ∈ r, '|' ∉ f ∧ ';' ∉ f) →
      decodeNotesRecords (encodeRecords rs) = rs) ∧
    (∀ rs : List (List Str), rs ≠ [] → (∀ r ∈ rs, r.length = 7) →
      (∀ r ∈ rs, ∀ f ∈ r, '|' ∉ f ∧ ';' ∉ f) →
      decodeCalendarRecords (encodeRecords rs) = rs) := by
  have hchunks : ∀ (rs : List (List Str)),
      (∀ r ∈ rs, ∀ f ∈ r, '|' ∉ f ∧ ';' ∉ f) →
      ∀ l ∈ rs.map (fun r => List.intercalate ['|'] r), ';' ∉ l := by
    intro rs hclean l hl
    obtain ⟨r, hr, rfl⟩ := List.mem_map.mp hl
    exact not_mem_intercalate (by decide) r (fun f hf => (hclean r hr f hf).2)
  have hsplit : ∀ (rs : List (List Str)), rs ≠ [] →
      (∀ r ∈ rs, ∀ f ∈ r, '|' ∉ f ∧ ';' ∉ f) →
      List.splitOn ';' (encodeRecords rs) = rs.map (fun r => List.intercalate ['|'] r) := by
    intro rs hne hclean
    exact List.splitOn_intercalate _ ';' (hchunks rs hclean) (by simpa using hne)
  have hne' : ∀ (rs : List (List Str)), rs ≠ [] → (∀ r ∈ rs, 2 ≤ r.length) →
      (encodeRecords rs).isEmpty = false := by
    intro rs hne hlen
    cases rs with
    | nil => exact absurd rfl hne
    | cons r t =>
      apply isEmpty_false_of_ne_nil
      unfold encodeRecords
      rw [List.map_cons]
      apply intercalate_cons_ne_nil
      match r, hlen r (by simp) with
      | a :: b :: t', _ =>
        rw [intercalate_cons_cons]
        simp
  constructor
  · intro rs hne hlen hclean
    have hb := hne' rs hne (fun r hr => by rw [hlen r hr])
    unfold decodeNotesRecords
    rw [hb]
    simp only [Bool.false_eq_true, if_false, hsplit rs hne hclean]
    exact filterMap_map_self rs (fun r hr =>
      parseNoteChunkParts_intercalate (hlen r hr) (fun f hf => (hclean r hr f hf).1))
  · intro rs hne hlen hclean
    have hb := hne' rs hne (fun r hr => by rw [hlen r hr]; omega)
    unfold decodeCalendarRecords
    rw [hb]
    simp only [Bool.false_eq_true, if_false, hsplit rs hne hclean]
    exact filterMap_map_self rs (fun r hr =>
      parseCalendarChunkParts_intercalate (hlen r hr) (fun f hf => (hclean r hr f hf).1))

/-- Witness for `decode_encode_roundtrip` at concrete record lists. -/
theorem decode_encode_roundtrip_witness :
    decodeNotesRecords (encodeRecords [[lit "t1", lit "c1"], [lit "t2", lit "c2"]]) =
      [[lit "t1", lit "c1"], [lit "t2", lit "c2"]] ∧
    decodeCalendarRecords
        (encodeRecords [[lit "T", lit "L", lit "N", lit "S", lit "E", lit "W", lit "U"]]) =
      [[lit "T", lit "L", lit "N", lit "S", lit "E", lit "W", lit "U"]] :=
  ⟨decode_encode_roundtrip.1 _ (by decide) (by decide) (by decide),
   decode_encode_roundtrip.2 _ (by decide) (by decide) (by decide)⟩

/-- **C9.** In the two-field notes shape only the first `'|'` of a chunk is
significant: `note_entry.split("|", 1)` makes the title the text before the
first `'|'` and the content the entire remainder, later `'|'` characters
included (notes.py 73-80 and the identical loop in notes.py 143-150) —
so a note's content may itself contain the field delimiter without
corrupting decoding. -/
theorem noteChunkFirstBarOnly (t rest : Str) (h : '|' ∉ t) :
    parseNoteChunk (t ++ '|' :: rest) = some ⟨t, rest⟩ := by
  have hmem : '|' ∈ t ++ '|' :: rest := List.mem_append.mpr (Or.inr (by simp))
  have hsplit : splitChLimit '|' 1 (t ++ '|' :: rest) = [t, rest] := by
    rw [splitChLimit_append_cons h 0 rest, splitChLimit_zero]
  unfold parseNoteChunk
  rw [if_pos hmem, hsplit]

/-- Witness for `noteChunkFirstBarOnly`: the content keeps its embedded
delimiters. -/
theorem noteChunkFirstBarOnly_witness :
    parseNoteChunk (lit "Title" ++ '|' :: lit "a|b|c") =
      some ⟨lit "Title", lit "a|b|c"⟩ :=
  noteChunkFirstBarOnly (lit "Title") (lit "a|b|c") (by decide)

/-- **C10.** Every email record decoded by `get_unread_emails` carries the
original content when it has at most 200 characters, and otherwise exactly
its first 200 characters followed by `"..."` (mail.py 102). -/
theorem mailContentPreview (s subj d c : Str)
    (hs : '|' ∉ s) (hsubj : '|' ∉ subj) (hd : '|' ∉ d) :
    (c.length ≤ 200 →
      parseEmailChunk (s ++ '|' :: subj ++ '|' :: d ++ '|' :: c) = some ⟨s, subj, d, c⟩) ∧
    (200 < c.length →
      parseEmailChunk (s ++ '|' :: subj ++ '|' :: d ++ '|' :: c) =
        some ⟨s, subj, d, c.take 200 ++ lit "..."⟩) := by
  have hmem : '|' ∈ s ++ '|' :: subj ++ '|' :: d ++ '|' :: c :=
    List.mem_append.mpr (Or.inr (by simp))
  have hsplit : splitChLimit '|' 3 (s ++ '|' :: subj ++ '|' :: d ++ '|' :: c) =
      [s, subj, d, c] := by
    have e1 := splitChLimit_append_cons hs 2 (subj ++ '|' :: d ++ '|' :: c)
    have e2 := splitChLimit_append_cons hsubj 1 (d ++ '|' :: c)
    have e3 := splitChLimit_append_cons hd 0 c
    norm_num at e1 e2 e3
    simp only [List.append_assoc, List.cons_append]
    rw [e1, e2, e3, splitChLimit_zero]
  constructor
  · intro hle
    unfold parseEmailChunk
    rw [if_pos hmem, hsplit]
    simp only [if_neg (Nat.not_lt.mpr hle)]
  · intro hgt
    unfold parseEmailChunk
    rw [if_pos hmem, hsplit]
    simp only [if_pos hgt]

/-- Witness for `mailContentPreview`: a short content survives unchanged, a
201-character content is previewed. -/
theorem mailContentPreview_witness :
    parseEmailChunk (lit "al" ++ '|' :: lit "hi" ++ '|' :: lit "Mon" ++ '|' :: lit "hello") =
      some ⟨lit "al", lit "hi", lit "Mon", lit "hello"⟩ ∧
    parseEmailChunk (lit "al" ++ '|' :: lit "hi" ++ '|' :: lit "Mon" ++ '|' ::
        List.replicate 201 'x') =
      some ⟨lit "al", lit "hi", lit "Mon", (List.replicate 201 'x').take 200 ++ lit "..."⟩ :=
  ⟨(mailContentPreview _ _ _ _ (by decide) (by decide) (by decide)).1 (by decide),
   (mailContentPreview _ _ _ _ (by decide) (by decide) (by decide)).2
     (by simp only [List.length_replicate]; omega)⟩

theorem parseCalendarChunk_short {c : Str} (h : (splitChLimit '|' 6 c).length < 7) :
    parseCalendarChunk c = none := by
  unfold parseCalendarChunk
  by_cases hm : '|' ∈ c
  · rw [if_pos hm]
    rcases hL : splitChLimit '|' 6 c with _ | ⟨a1, _ | ⟨a2, _ | ⟨a3, _ | ⟨a4, _ | ⟨a5,
      _ | ⟨a6, _ | ⟨a7, t⟩⟩⟩⟩⟩⟩⟩ <;> rw [hL] at h <;> try rfl
    cases t with
    | nil => simp at h
    | cons x t' => rfl
  · rw [if_neg hm]

theorem parseMsgChunk_short {c : Str} (h : (splitChLimit '|' 2 c).length < 3) :
    parseMsgChunk c = none := by
  unfold parseMsgChunk
  by_cases hm : '|' ∈ c
  · rw [if_pos hm]
    rcases hL : splitChLimit '|' 2 c with _ | ⟨a1, _ | ⟨a2, _ | ⟨a3, t⟩⟩⟩ <;>
      rw [hL] at h <;> try rfl
    cases t with
    | nil => simp at h
    | cons x t' => rfl
  · rw [if_neg hm]

/-- **C7.** Decode tolerance: a chunk without the field delimiter is
discarded without error, and a chunk splitting into fewer fields than the
record shape requires (fewer than 7 for calendar events, fewer than 3 for
messages) is dropped silently, contributing no record to the result
(calendar.py 127-143, messages.py 134-147). -/
theorem malformedChunksDropped :
    (∀ c : Str, '|' ∉ c → parseCalendarChunk c = none ∧ parseMsgChunk c = none) ∧
    (∀ c : Str, (splitChLimit '|' 6 c).length < 7 → parseCalendarChunk c = none) ∧
    (∀ c : Str, (splitChLimit '|' 2 c).length < 3 → parseMsgChunk c = none) ∧
    (∀ (pre post : List Str) (c : Str), parseCalendarChunk c = none →
      decodeCalendarChunks (pre ++ c :: post) = decodeCalendarChunks (pre ++ post)) ∧
    (∀ (pre post : List Str) (c : Str), parseMsgChunk c = none →
      decodeMsgChunks (pre ++ c :: post) = decodeMsgChunks (pre ++ post)) := by
  refine ⟨?_, fun c h => parseCalendarChunk_short h, fun c h => parseMsgChunk_short h, ?_, ?_⟩
  · intro c hm
    constructor
    · unfold parseCalendarChunk; rw [if_neg hm]
    · unfold parseMsgChunk; rw [if_neg hm]
  · intro pre post c h
    unfold decodeCalendarChunks
    rw [List.filterMap_append, List.filterMap_append, List.filterMap_cons_none h]
  · intro pre post c h
    unfold decodeMsgChunks
    rw [List.filterMap_append, List.filterMap_append, List.filterMap_cons_none h]

/-- Witness for `malformedChunksDropped` at concrete chunks. -/
theorem malformedChunksDropped_witness :
    parseCalendarChunk (lit "no delimiter here") = none ∧
    parseMsgChunk (lit "no delimiter here") = none ∧
    parseCalendarChunk (lit "a|b|c") = none ∧
    parseMsgChunk (lit "a|b") = none ∧
    decodeCalendarChunks ([lit "T|L|N|S|E|W|U"] ++ lit "a|b|c" :: [lit "T2|L|N|S|E|W|U2"]) =
      decodeCalendarChunks ([lit "T|L|N|S|E|W|U"] ++ [lit "T2|L|N|S|E|W|U2"]) :=
  ⟨(malformedChunksDropped.1 _ (by decide)).1,
   (malformedChunksDropped.1 _ (by decide)).2,
   malformedChunksDropped.2.1 _ (by decide),
   malformedChunksDropped.2.2.1 _ (by decide),
   malformedChunksDropped.2.2.2.1 _ _ _ (malformedChunksDropped.2.1 _ (by decide))⟩

/-- **C3.** When `check_app_access` for the target application returns
false, the adapter operation performs zero `run_script` invocations and
immediately returns its failure value: an empty collection (or zero count)
for the listing/reading operations, a `{success: False, message}` dict for
the create/send/open operations.  (The permission probe itself is not a
`run_script` call of the adapter; `runnerCalls` counts the adapter's own
Runner use, which is what the spec's call-count assertion observes.) -/
theorem accessDenialShortCircuits :
    (∀ (env : Env) (q : Str), env.access (lit "Notes") = false →
      searchNotes env q = ⟨[], 0, [lit "Cannot access Notes app"]⟩) ∧
    (∀ (env : Env) (n : Nat), env.access (lit "Notes") = false →
      listNotes env n = ⟨[], 0, [lit "Cannot access Notes app"]⟩) ∧
    (∀ (env : Env) (t b f : Str), env.access (lit "Notes") = false →
      createNote env t b f =
        ⟨⟨false, lit "Cannot access Notes app"⟩, 0, [lit "Cannot access Notes app"]⟩) ∧
    (∀ (env : Env) (p m : Str), env.access (lit "Messages") = false →
      sendMessage env p m =
        ⟨⟨false, lit "Cannot access Messages app"⟩, 0, [lit "Cannot access Messages app"]⟩) ∧
    (∀ (env : Env) (p : Str) (n : Nat), env.access (lit "Messages") = false →
      readMessages env p n = ⟨[], 0, [lit "Cannot access Messages app"]⟩) ∧
    (∀ (env : Env), env.access (lit "Messages") = false →
      getUnreadCount env = ⟨0, 0, [lit "Cannot access Messages app"]⟩) ∧
    (∀ (env : Env) (q : Str) (n : Nat) (fromD toD : Option Str),
      env.access (lit "Calendar") = false →
      searchEvents env q n fromD toD = ⟨[], 0, [lit "Cannot access Calendar app"]⟩) ∧
    (∀ (env : Env) (n : Nat) (fromD toD : Option Str), env.access (lit "Calendar") = false →
      getEvents env n fromD toD = ⟨[], 0, [lit "Cannot access Calendar app"]⟩) ∧
    (∀ (env : Env) (i : Str), env.access (lit "Calendar") = false →
      openEvent env i =
        ⟨⟨false, lit "Cannot access Calendar app"⟩, 0, [lit "Cannot access Calendar app"]⟩) ∧
    (∀ (env : Env) (a m : Option Str) (n : Nat), env.access (lit "Mail") = false →
      getUnreadEmails env a m n = ⟨[], 0, [lit "Cannot access Mail app"]⟩) := by
  refine ⟨?_, ?_, ?_, ?_, ?_, ?_, ?_, ?_, ?_, ?_⟩ <;> intros <;>
    simp_all [searchNotes, listNotes, createNote, sendMessage, readMessages,
      getUnreadCount, searchEvents, getEvents, openEvent, getUnreadEmails]

/-- A concrete environment whose permission probe always denies. -/
def envDenied : Env :=
  ⟨fun _ => false, fun _ => ⟨true, [], none⟩, lit "2026-01-01T00:00:00",
    fun _ => lit "2026-01-31T00:00:00", fun _ => some (lit "01/01/2026"), fun _ => some 0⟩

/-- Witness for `accessDenialShortCircuits` under `envDenied`. -/
theorem accessDenialShortCircuits_witness :
    searchNotes envDenied (lit "q") = ⟨[], 0, [lit "Cannot access Notes app"]⟩ ∧
    sendMessage envDenied (lit "555") (lit "hi") =
      ⟨⟨false, lit "Cannot access Messages app"⟩, 0, [lit "Cannot access Messages app"]⟩ ∧
    searchEvents envDenied (lit "q") 10 none none =
      ⟨[], 0, [lit "Cannot access Calendar app"]⟩ ∧
    getUnreadEmails envDenied none none 10 = ⟨[], 0, [lit "Cannot access Mail app"]⟩ :=
  ⟨accessDenialShortCircuits.1 envDenied (lit "q") rfl,
   accessDenialShortCircuits.2.2.2.1 envDenied (lit "555") (lit "hi") rfl,
   accessDenialShortCircuits.2.2.2.2.2.2.1 envDenied (lit "q") 10 none none rfl,
   accessDenialShortCircuits.2.2.2.2.2.2.2.2.2 envDenied none none 10 rfl⟩

/-- **C4.** A tool operation whose required free-text parameter is missing
(`None`) or empty returns a validation-failure message and performs zero
Runner invocations (server.py 126-127, 149-150, 188-189, 198-199,
211-212). -/
theorem validationShortCircuits :
    (∀ (env : Env) (st title body : Option Str) (fn : Str), strFalsy st = true →
      notesTool env (lit "search") st title body fn =
        ⟨lit "Search text is required for search operation", 0, []⟩) ∧
    (∀ (env : Env) (st title body : Option Str) (fn : Str),
      strFalsy title = true ∨ strFalsy body = true →
      notesTool env (lit "create") st title body fn =
        ⟨lit "Title and body are required for create operation", 0, []⟩) ∧
    (∀ (env : Env) (p m : Option Str) (n : Nat) (t : Option Str),
      strFalsy p = true ∨ strFalsy m = true →
      messagesTool env (lit "send") p m n t =
        ⟨lit "Phone number and message are required for send operation", 0, []⟩) ∧
    (∀ (env : Env) (p m : Option Str) (n : Nat) (t : Option Str), strFalsy p = true →
      messagesTool env (lit "read") p m n t =
        ⟨lit "Phone number is required for read operation", 0, []⟩) ∧
    (∀ (env : Env) (p m : Option Str) (n : Nat) (t : Option Str),
      strFalsy p = true ∨ strFalsy m = true ∨ strFalsy t = true →
      messagesTool env (lit "schedule") p m n t =
        ⟨lit "Phone number, message, and scheduled_time are required for schedule operation",
          0, []⟩) := by
  refine ⟨?_, ?_, ?_, ?_, ?_⟩
  · intro env st title body fn h
    unfold notesTool
    rw [if_pos rfl, if_pos (by rw [h])]
  · intro env st title body fn h
    unfold notesTool
    rw [if_neg (by decide), if_neg (by decide), if_pos rfl,
      if_pos (by rcases h with h | h <;> simp [h])]
  · intro env p m n t h
    unfold messagesTool
    rw [if_pos rfl, if_pos (by rcases h with h | h <;> simp [h])]
  · intro env p m n t h
    unfold messagesTool
    rw [if_neg (by decide), if_pos rfl, if_pos (by rw [h])]
  · intro env p m n t h
    unfold messagesTool
    rw [if_neg (by decide), if_neg (by decide), if_pos rfl,
      if_pos (by rcases h with h | h | h <;> simp [h])]

/-- Witness for `validationShortCircuits`: empty and missing parameters. -/
theorem validationShortCircuits_witness :
    notesTool envDenied (lit "create") (some (lit "x")) (some []) (some (lit "b"))
        (lit "Claude") =
      ⟨lit "Title and body are required for create operation", 0, []⟩ ∧
    messagesTool envDenied (lit "send") none (some (lit "hi")) 10 none =
      ⟨lit "Phone number and message are required for send operation", 0, []⟩ :=
  ⟨validationShortCircuits.2.1 envDenied _ _ _ _ (Or.inl rfl),
   validationShortCircuits.2.2.1 envDenied _ _ _ _ (Or.inl rfl)⟩

/-- **C8.** When no date range is supplied, calendar event search defaults
to the window from the present to 30 days ahead (calendar.py 38-43) and
calendar event listing to the present to 1 day ahead (calendar.py 165-170);
a caller-supplied (non-empty) `from_date`/`to_date` overrides the
corresponding default. -/
theorem defaultDateWindows :
    (∀ (env : Env) (toD : Option Str), (searchEventsDates env none toD).1 = env.nowIso) ∧
    (∀ (env : Env) (fromD : Option Str),
      (searchEventsDates env fromD none).2 = env.plusDaysIso 30) ∧
    (∀ (env : Env) (toD : Option Str), (getEventsDates env none toD).1 = env.nowIso) ∧
    (∀ (env : Env) (fromD : Option Str),
      (getEventsDates env fromD none).2 = env.plusDaysIso 1) ∧
    (∀ (env : Env) (s : Str) (toD : Option Str), s ≠ [] →
      (searchEventsDates env (some s) toD).1 = s) ∧
    (∀ (env : Env) (fromD : Option Str) (s : Str), s ≠ [] →
      (searchEventsDates env fromD (some s)).2 = s) ∧
    (∀ (env : Env) (s : Str) (toD : Option Str), s ≠ [] →
      (getEventsDates env (some s) toD).1 = s) ∧
    (∀ (env : Env) (fromD : Option Str) (s : Str), s ≠ [] →
      (getEventsDates env fromD (some s)).2 = s) := by
  refine ⟨fun env toD => rfl, fun env fromD => rfl, fun env toD => rfl, fun env fromD => rfl,
    ?_, ?_, ?_, ?_⟩ <;>
  · intro env x y h
    simp [searchEventsDates, getEventsDates, strFalsy, isEmpty_false_of_ne_nil h]

/-- Witness for `defaultDateWindows` with a concrete override date. -/
theorem defaultDateWindows_witness :
    (searchEventsDates envDenied (some (lit "2026-02-01")) none).1 = lit "2026-02-01" ∧
    (getEventsDates envDenied none (some (lit "2026-02-02"))).2 = lit "2026-02-02" ∧
    (searchEventsDates envDenied none none).2 = envDenied.plusDaysIso 30 :=
  ⟨defaultDateWindows.2.2.2.2.1 envDenied (lit "2026-02-01") none (by decide),
   defaultDateWindows.2.2.2.2.2.2.2 envDenied none (lit "2026-02-02") (by decide),
   defaultDateWindows.2.1 envDenied none⟩

/-- **C5 counterexample.** The claim says every permanently unsupported
operation returns `success: false`; but `list_guides` (maps.py 202) returns
`"success": True` with its "not available, check the Maps app" message. -/
theorem listGuidesSuccessTrue_counterexample :
    (listGuides envDenied).val.success = true ∧
    ¬((listGuides envDenied).val.success = false) := by
  constructor
  · rfl
  · intro h
    simp [listGuides] at h

/-- **C5 (amended).** The permanently unsupported operations never invoke
the Runner and return fixed "not supported / do it manually" messages (with
the caller's guide name or address interpolated): `create_guide`,
`add_to_guide` and `schedule_message` report `success: false`, while
`list_guides` reports `success: true` (maps.py 194-229,
messages.py 152-169). -/
theorem unsupportedOperationStubs :
    (∀ (env : Env) (g : Str), createGuide env g =
      ⟨⟨false, lit "Creating guides via AppleScript is not supported. Please create the guide '" ++
          g ++ lit "' manually in the Maps app."⟩, 0, []⟩) ∧
    (∀ (env : Env) (a g : Str), addToGuide env a g =
      ⟨⟨false, lit "Adding to guides via AppleScript is not supported. Please manually add '" ++
          a ++ lit "' to the guide '" ++ g ++ lit "' in the Maps app."⟩, 0, []⟩) ∧
    (∀ (env : Env) (p m t : Str), scheduleMessage env p m t =
      ⟨⟨false, lit "Message scheduling is not natively supported by Apple Messages. Consider using a third-party automation tool."⟩,
        0, []⟩) ∧
    (∀ (env : Env), listGuides env =
      ⟨⟨true, lit "Guide listing is not available via AppleScript. Please check the Maps app directly for your guides."⟩,
        0, []⟩) :=
  ⟨fun _ _ => rfl, fun _ _ _ => rfl, fun _ _ _ _ => rfl, fun _ => rfl⟩

/-- An environment whose Runner call cleanly returns the given blob, with
every permission granted and the stdlib oracles defined everywhere. -/
def envBlob (blob : Str) : Env :=
  ⟨fun _ => true, fun _ => ⟨true, blob, none⟩, lit "2026-01-01T00:00:00",
    fun _ => lit "2026-01-31T00:00:00", fun _ => some (lit "01/01/2026"), fun _ => some 0⟩

/-- **C2 counterexample.** For a blob beginning with `"Error:"`, the
adapter does return no records, but the remainder after the prefix is not
surfaced as the operation's error message: the operation's return value is
the bare empty list — identical for two different remainders, so the caller
cannot recover the message — and the only trace is a `logger.error` line
containing the whole blob (prefix included), not the remainder
(notes.py 67-69). -/
theorem errorBlobNotSurfaced_counterexample :
    (searchNotes (envBlob (lit "Error: boom")) (lit "q")).val = [] ∧
    (searchNotes (envBlob (lit "Error: boom")) (lit "q")).val =
      (searchNotes (envBlob (lit "Error: other")) (lit "q")).val ∧
    (searchNotes (envBlob (lit "Error: boom")) (lit "q")).log =
      [lit "Notes error: Error: boom"] ∧
    lit " boom" ∉ (searchNotes (envBlob (lit "Error: boom")) (lit "q")).log := by
  refine ⟨rfl, rfl, rfl, ?_⟩
  decide

/-- **C2 (amended).** Decoding a blob that begins with `"Error:"` yields an
empty record list, after exactly one Runner call; the blob — with its
`"Error:"` prefix intact — is recorded only in the adapter's error log,
embedded in a longer diagnostic line, and the operation's return value to
its caller is just the empty list (notes.py 65-69, calendar.py 120-124). -/
theorem errorBlobLoggedOnly (env : Env) (q blob : Str)
    (hrun : ∀ s, env.run s = ⟨true, blob, none⟩)
    (hpre : (lit "Error:").isPrefixOf blob = true)
    (haccN : env.access (lit "Notes") = true)
    (haccC : env.access (lit "Calendar") = true)
    (sd ed : Str)
    (hsd : env.parseDate10 ((searchEventsDates env none none).1.take 10) = some sd)
    (hed : env.parseDate10 ((searchEventsDates env none none).2.take 10) = some ed) :
    searchNotes env q = ⟨[], 1, [lit "Notes error: " ++ blob]⟩ ∧
    searchEvents env q 10 none none = ⟨[], 1, [lit "Calendar search error: " ++ blob]⟩ := by
  have hne : blob.isEmpty = false := by
    obtain ⟨t, rfl⟩ := List.isPrefixOf_iff_prefix.mp hpre
    rfl
  constructor
  · simp [searchNotes, haccN, hrun, hne, hpre]
  · simp [searchEvents, haccC, hrun, hne, hpre, hsd, hed]

/-- Witness for `errorBlobLoggedOnly` under `envBlob`. -/
theorem errorBlobLoggedOnly_witness :
    searchNotes (envBlob (lit "Error: boom")) (lit "q") =
      ⟨[], 1, [lit "Notes error: " ++ lit "Error: boom"]⟩ ∧
    searchEvents (envBlob (lit "Error: boom")) (lit "q") 10 none none =
      ⟨[], 1, [lit "Calendar search error: " ++ lit "Error: boom"]⟩ :=
  errorBlobLoggedOnly (envBlob (lit "Error: boom")) (lit "q") (lit "Error: boom")
    (fun _ => rfl) (by decide) rfl rfl (lit "01/01/2026") (lit "01/01/2026") rfl rfl

/-- A results page with two anchors and matching snippet containers, whose
linked pages all render to a 501-character text. -/
def webEnvLong : WebEnv :=
  ⟨[⟨lit "T1", lit "http://a/", some (some (lit "S1"))⟩,
    ⟨lit "T2", lit "http://b/", some (some (lit "S2"))⟩],
    fun _ => true, fun _ => some (List.replicate 501 'a'), none⟩

set_option maxRecDepth 40000 in
/-- **C6 counterexample.** The claim says the content field is truncated to
exactly the 500-character preview length when the page text exceeds it; in
fact `search_web` appends `"..."` after the first 500 characters
(websearch.py 77), so for a 501-character page text each content field has
length 503, not 500. -/
theorem webContentLength_counterexample :
    (searchWeb webEnvLong (lit "duckduckgo rust") 5).results.map
        (fun r => r.content.length) = [503, 503] ∧
    ¬(503 = 500) := by
  constructor
  · have h3 : (lit "...").length = 3 := rfl
    simp [searchWeb, webEnvLong, extractPageContent, List.length_append,
      List.length_take, List.length_replicate, h3]
  · omega

/-- **C6 (amended).** For a results page with exactly two result anchors
with matching snippet containers and `max_results ≥ 2`, `search_web`
returns exactly two results, each with non-empty title, url and snippet,
and each result's content equals the fetched page text when that text has
at most 500 characters and is the text's first 500 characters followed by
`"..."` when it is longer (websearch.py 53-82). -/
theorem webSearchTwoResults (env : WebEnv) (q : Str) (mr : Nat) (a1 a2 : Anchor)
    (s1 s2 : Str)
    (hpage : env.page = [a1, a2]) (hfail : env.fail = none) (hmr : 2 ≤ mr)
    (ht1 : a1.text ≠ []) (ht2 : a2.text ≠ []) (hu1 : a1.href ≠ []) (hu2 : a2.href ≠ [])
    (hs1 : a1.container = some (some s1)) (hs2 : a2.container = some (some s2))
    (hs1n : s1 ≠ []) (hs2n : s2 ≠ []) :
    (searchWeb env q mr).success = true ∧
    (searchWeb env q mr).results.length = 2 ∧
    (∀ r ∈ (searchWeb env q mr).results, r.title ≠ [] ∧ r.url ≠ [] ∧ r.snippet ≠ []) ∧
    (searchWeb env q mr).results.map (fun r => r.content) =
      [a1, a2].map (fun a =>
        if 500 < (extractPageContent env a.href).length then
          (extractPageContent env a.href).take 500 ++ lit "..."
        else extractPageContent env a.href) := by
  have htake : List.take mr [a1, a2] = [a1, a2] :=
    List.take_of_length_le (by simpa using hmr)
  unfold searchWeb
  rw [hfail]
  refine ⟨rfl, ?_, ?_, ?_⟩
  · simp [hpage, htake]
  · intro r hr
    simp only [hpage, htake, List.map_cons, List.map_nil, List.mem_cons,
      List.not_mem_nil, or_false] at hr
    rcases hr with rfl | rfl
    · exact ⟨ht1, hu1, by simp [hs1, hs1n]⟩
    · exact ⟨ht2, hu2, by simp [hs2, hs2n]⟩
  · simp [hpage, htake]

/-- A results page with two anchors and matching snippet containers, whose
linked pages all render to a short text. -/
def webEnvShort : WebEnv :=
  ⟨[⟨lit "T1", lit "http://a/", some (some (lit "S1"))⟩,
    ⟨lit "T2", lit "http://b/", some (some (lit "S2"))⟩],
    fun _ => true, fun _ => some (lit "short page text"), none⟩

/-- Witness for `webSearchTwoResults` under `webEnvShort`. -/
theorem webSearchTwoResults_witness :
    (searchWeb webEnvShort (lit "duckduckgo rust") 5).success = true ∧
    (searchWeb webEnvShort (lit "duckduckgo rust") 5).results.length = 2 ∧
    (∀ r ∈ (searchWeb webEnvShort (lit "duckduckgo rust") 5).results,
      r.title ≠ [] ∧ r.url ≠ [] ∧ r.snippet ≠ []) ∧
    (searchWeb webEnvShort (lit "duckduckgo rust") 5).results.map (fun r => r.content) =
      [⟨lit "T1", lit "http://a/", some (some (lit "S1"))⟩,
        ⟨lit "T2", lit "http://b/", some (some (lit "S2"))⟩].map (fun a : Anchor =>
          if 500 < (extractPageContent webEnvShort a.href).length then
            (extractPageContent webEnvShort a.href).take 500 ++ lit "..."
          else extractPageContent webEnvShort a.href) :=
  webSearchTwoResults webEnvShort (lit "duckduckgo rust") 5 _ _ _ _ rfl rfl
    (by omega) (by decide) (by decide) (by decide) (by decide) rfl rfl
    (by decide) (by decide)
